import Mathlib

/-!
Verification of the Sedem platform against its specification.

The repository's source under `src/` contains the Next.js frontend
(pages, the `ApiClient` HTTP wrapper in `utils/api.ts`, dashboard
helpers).  The duplicate-work detection engine described in the
specification (normalizer, fingerprint extractor, similarity index,
decision engine, job coordinator, alert lifecycle store) is described
in the project documentation but its implementation is not part of the
source tree; those components are modelled here directly from the
specification text, each such definition marked `Modelled from the
spec:` in its doc comment.

Frontend code is embedded shallowly: JavaScript strings are modelled
as `List Char` (one element per UTF-16 code unit, which is the unit
`String.prototype.length` and `substring` operate on), browser effects
(localStorage, `window.location`) as an explicit `Browser` state
record, and exceptions thrown by `fetch` / `response.json()` as
`Except` values fed into the embedded handlers.
-/

/- ### Frontend: `formatCommitMessage` (src/unnamed/part_001, lines 97-99)

`const formatCommitMessage = (message: string): string => {
   return message.length > 60 ? message.substring(0, 60) + '...' : message
 }` -/

/-- A JavaScript string, one list element per UTF-16 code unit. -/
abbrev JsString := List Char

/-- The three-dot ellipsis appended by `formatCommitMessage`. -/
def ellipsis : JsString := ['.', '.', '.']

/-- Embedding of the dashboard helper `formatCommitMessage`:
`message.length > 60 ? message.substring(0, 60) + '...' : message`. -/
def formatCommitMessage (message : JsString) : JsString :=
  if message.length > 60 then message.take 60 ++ ellipsis else message

/- ### Frontend: `ApiClient` (src/unnamed/part_005)

The client wraps `fetch` and response handling in `try/catch` at every
level.  The possible outcomes of the effectful primitives are made
explicit:
  * `fetch` either throws (a `JsError`) or produces a `Response`;
  * `response.json()` either throws or produces a parsed body.
The parsed body is abstracted to the two fields `handleResponse`
reads (`data.detail`, `data.message`); JavaScript `||` treats the
empty string as falsy, which `jsStringOr` reproduces. -/

/-- A thrown JavaScript value: whether it is an `Error` instance, and
its `.message` when it is. -/
structure JsError where
  isErrorInstance : Bool
  message : JsString
deriving Repr, DecidableEq

/-- The error text produced by the catch blocks:
`error instanceof Error ? error.message : 'Network error'`. -/
def jsErrorText (e : JsError) : JsString :=
  if e.isErrorInstance then e.message else "Network error".data

/-- A parsed JSON body, abstracted to the fields `handleResponse`
reads.  `none` models an absent field (undefined). -/
structure JsonBody where
  detail : Option JsString
  message : Option JsString
deriving Repr, DecidableEq

/-- JavaScript `a || b` for an optional string `a`: falls through on
`undefined` and on the empty string (both falsy). -/
def jsStringOr (a : Option JsString) (b : JsString) : JsString :=
  match a with
  | some s => if s = [] then b else s
  | none => b

/-- The observable part of a `fetch` `Response`: its status code, its
`ok` flag, and the outcome of calling `.json()` on it (which may
throw). -/
structure Response where
  status : Nat
  ok : Bool
  json : Except JsError JsonBody
deriving Repr

/-- The `ApiResponse<T>` interface of `utils/api.ts`. -/
structure ApiResponse (T : Type) where
  data : Option T
  error : Option JsString
  success : Bool
deriving Repr, DecidableEq

/-- Browser-side state touched by the client: whether `window` is
defined (false during server-side rendering), the stored
`localStorage['auth_token']`, and `window.location.href`. -/
structure Browser where
  windowDefined : Bool
  authToken : Option JsString
  locationHref : JsString
deriving Repr, DecidableEq

/-- The `{ success: false, error: ... }` value built in every catch
block of `ApiClient`. -/
def catchResponse (e : JsError) : ApiResponse JsonBody :=
  { data := none, error := some (jsErrorText e), success := false }

/-- Embedding of `ApiClient.handleResponse` (src/unnamed/part_005,
lines 184-211 and 427-454): a 401 clears the token and redirects when
`window` is defined and returns `Unauthorized` without touching the
body; otherwise the body is parsed (a throw is caught), non-`ok`
statuses map to `data.detail || data.message || 'Request failed'`,
and `ok` statuses to `{ success: true, data }`. -/
def handleResponse (response : Response) (b : Browser) :
    ApiResponse JsonBody × Browser :=
  if response.status = 401 then
    let b2 := if b.windowDefined then
        { b with authToken := none, locationHref := "/login".data }
      else b
    ({ data := none, error := some "Unauthorized".data, success := false }, b2)
  else
    match response.json with
    | .error e => (catchResponse e, b)
    | .ok body =>
      if !response.ok then
       ({ data := none,
          error := some (jsStringOr body.detail
            (jsStringOr body.message "Request failed".data)),
          success := false }, b)
      else ({ data := some body, error := none, success := true }, b)

/-- Outcome of the `fetch` call itself: either a thrown error or a
`Response`. -/
abbrev FetchOutcome := Except JsError Response

/-- Embedding of `ApiClient.get`: `fetch` wrapped in `try/catch`, the
response fed to `handleResponse`. -/
def ApiClient.get (outcome : FetchOutcome) (b : Browser) :
    ApiResponse JsonBody × Browser :=
  match outcome with
  | .error e => (catchResponse e, b)
  | .ok response => handleResponse response b

/-- Embedding of `ApiClient.post`; the request body does not affect
how the outcome is handled. -/
def ApiClient.post (outcome : FetchOutcome) (b : Browser) :
    ApiResponse JsonBody × Browser :=
  match outcome with
  | .error e => (catchResponse e, b)
  | .ok response => handleResponse response b

/-- Embedding of `ApiClient.put`. -/
def ApiClient.put (outcome : FetchOutcome) (b : Browser) :
    ApiResponse JsonBody × Browser :=
  match outcome with
  | .error e => (catchResponse e, b)
  | .ok response => handleResponse response b

/-- Embedding of `ApiClient.delete`. -/
def ApiClient.delete (outcome : FetchOutcome) (b : Browser) :
    ApiResponse JsonBody × Browser :=
  match outcome with
  | .error e => (catchResponse e, b)
  | .ok response => handleResponse response b

/- ### Duplicate-work detection engine

The engine itself (spec sections 4.1-4.6) is not part of the source
tree; every definition below is modelled from the specification text
and says so in its doc comment. -/

/-- Modelled from the spec (section 7, error taxonomy): the engine's
error kinds.  The implementation is missing from the source tree. -/
inductive EngineError
  | transient
  | malformedScript
  | indexCorruption
  | capacityExceeded
deriving Repr, DecidableEq

/-- Modelled from the spec (section 4.1): the kind of a stripped
literal — `retain literal kind, not value`. -/
inductive LiteralKind
  | stringLit
  | numberLit
deriving Repr, DecidableEq

/-- Modelled from the spec (section 4.1): one item of the raw script
text as the per-format `tokenize` adapter delivers it.  The normalizer
implementation is missing from the source tree. -/
inductive RawItem
  | comment (text : List Char)
  | blank
  | literal (kind : LiteralKind) (value : List Char)
  | ident (name : List Char)
  | opTok (name : List Char)
deriving Repr, DecidableEq

/-- Modelled from the spec (section 4.1): one canonical abstract
operation token of a `NormalizedDocument`. -/
inductive OpToken
  | litKind (k : LiteralKind)
  | placeholder (i : Nat)
  | op (name : List Char)
  | boundary
deriving Repr, DecidableEq

/-- Modelled from the spec (section 3): the canonical operation-token
sequence of a normalized script. -/
structure NormalizedDocument where
  tokens : List OpToken
deriving Repr, DecidableEq

/-- Modelled from the spec (section 4.1): drop comments — `strip
comments`. -/
def stripComments (items : List RawItem) : List RawItem :=
  items.filter (fun it => match it with
    | .comment _ => false
    | _ => true)

/-- Modelled from the spec (section 4.1): `collapse consecutive
blank/formatting-only lines` into a single one. -/
def collapseBlanks : List RawItem → List RawItem
  | [] => []
  | .blank :: .blank :: rest => collapseBlanks (.blank :: rest)
  | it :: rest => it :: collapseBlanks rest
termination_by l => l.length

/-- Modelled from the spec (section 4.1): one step of canonical
tokenization, threading the list of identifier names in order of first
appearance — `structurally rename local identifiers to positional
placeholders in order of first appearance`. -/
def renameStep (acc : List (List Char) × List OpToken) (it : RawItem) :
    List (List Char) × List OpToken :=
  match it with
  | .ident n =>
    match acc.1.findIdx? (fun m => m = n) with
    | some i => (acc.1, acc.2 ++ [.placeholder i])
    | none => (acc.1 ++ [n], acc.2 ++ [.placeholder acc.1.length])
  | .literal k _ => (acc.1, acc.2 ++ [.litKind k])
  | .opTok s => (acc.1, acc.2 ++ [.op s])
  | .comment _ => (acc.1, acc.2)
  | .blank => (acc.1, acc.2 ++ [.boundary])

/-- Modelled from the spec (section 4.1, Script Normalizer): strip
comments, collapse blanks, strip literal values and rename identifiers
positionally.  `Side effects: none; pure function of input text and
format tag.`  A size cap models the spec's resource limit. -/
def normalizeScript (sizeCap : Nat) (raw : List RawItem) :
    Except EngineError NormalizedDocument :=
  if sizeCap < raw.length then .error .malformedScript
  else
    .ok ⟨((collapseBlanks (stripComments raw)).foldl renameStep ([], [])).2⟩

/-- Modelled from the spec (sections 3 and 4.2): fixed index-generation
configuration — shingle size `k`, hash count `h`, normalizer size cap,
queue capacity and the coordinator's retry cap. -/
structure EngineConfig where
  k : Nat
  h : Nat
  sizeCap : Nat
  queueCapacity : Nat
  maxAttempts : Nat
deriving Repr, DecidableEq

/-- Modelled from the spec (section 3): a FingerprintSketch, `an
ordered vector of MinHash values of fixed length h`. -/
structure FingerprintSketch where
  values : List Nat
deriving Repr, DecidableEq

/-- Modelled from the spec (section 4.2): an injective-by-construction
numeric code for an operation token, input to the shingle hashes. -/
def encodeToken : OpToken → Nat
  | .litKind .stringLit => 1
  | .litKind .numberLit => 2
  | .boundary => 3
  | .placeholder i => 4 + 2 * i
  | .op name => 5 + 2 * name.foldl (fun a c => a * 1114112 + c.toNat) 0

/-- Modelled from the spec (section 4.2): the list of shingles —
windows of `k` consecutive operation tokens. -/
def shingles (k : Nat) (tokens : List OpToken) : List (List OpToken) :=
  if tokens.length < k then []
  else (List.range (tokens.length - k + 1)).map
    (fun i => (tokens.drop i).take k)

/-- Modelled from the spec (section 4.2): the `i`-th member of the
family of `h` independent hash functions, a seeded polynomial hash
over the token codes, reduced modulo `2 ^ 64`. -/
def shingleHash (seed : Nat) (sh : List OpToken) : Nat :=
  (sh.foldl (fun a t => a * 1000003 + encodeToken t + 1) (seed + 1)) % (2 ^ 64)

/-- Modelled from the spec (section 4.2, Fingerprint Extractor):
MinHash — for each of the `h` hash functions keep the minimum hash
over all shingles; documents shorter than `k` tokens are rejected with
a `MalformedScriptError`. -/
def extractSketch (cfg : EngineConfig) (doc : NormalizedDocument) :
    Except EngineError FingerprintSketch :=
  if doc.tokens.length < cfg.k then .error .malformedScript
  else
    .ok ⟨(List.range cfg.h).map
      (fun i => (((shingles cfg.k doc.tokens).map (shingleHash i)).min?).getD 0)⟩

/-- Modelled from the spec (section 6, ingestion contract): a change
event `{owner_id, repo_id, path, commit_sha, raw_content,
format_tag}`. -/
inductive FormatTag
  | genericScript
  | notebookCellSequence
deriving Repr, DecidableEq

/-- Modelled from the spec (section 6): the change-event record
delivered by the commit-sync collaborator. -/
structure ChangeEvent where
  owner_id : Nat
  repo_id : Nat
  path : List Char
  commit_sha : List Char
  raw_content : List RawItem
  format_tag : FormatTag
deriving Repr, DecidableEq

/-- Modelled from the spec (section 2, control flow): the
normalize-then-fingerprint front half of the pipeline run for one
change event. -/
def pipelineSketch (cfg : EngineConfig) (e : ChangeEvent) :
    Except EngineError FingerprintSketch :=
  (normalizeScript cfg.sizeCap e.raw_content).bind (extractSketch cfg)

/-- Modelled from the spec (section 3): a ScriptVersion identity with
its supersession mark — `a new commit touching the same path creates a
new ScriptVersion and marks the prior one for that path as
superseded`. -/
structure ScriptVersion where
  scriptId : Nat
  owner_id : Nat
  repo_id : Nat
  path : List Char
  commit_sha : List Char
  contentHash : Nat
  superseded : Bool
deriving Repr, DecidableEq

/-- Modelled from the spec (glossary): a named similarity bracket
driving alert creation. -/
inductive Tier
  | likely_duplicate
  | similar
deriving Repr, DecidableEq

/-- Modelled from the spec (section 4.4, tiering): `similarity ≥ 0.85
→ tier likely_duplicate; 0.60 ≤ similarity < 0.85 → tier similar;
below 0.60 → no alert`. -/
def decideTier (sim : ℚ) : Option Tier :=
  if 85 / 100 ≤ sim then some .likely_duplicate
  else if 60 / 100 ≤ sim then some .similar
  else none

/-- Modelled from the spec (section 4.4): one alert upsert emitted by
the Duplicate Decision Engine. -/
structure AlertUpsert where
  queryId : Nat
  candidateId : Nat
  queryPath : List Char
  candidatePath : List Char
  score : ℚ
  tier : Tier
deriving Repr, DecidableEq

/-- Modelled from the spec (section 4.4): the decision for one
(candidate, estimated similarity) pair — the same-path tie-break
(`supersession is not duplication`) suppresses the alert, otherwise
the tier thresholds apply. -/
def decideOne (query : ScriptVersion) (c : ScriptVersion × ℚ) :
    Option AlertUpsert :=
  if c.1.path = query.path then none
  else
    match decideTier c.2 with
    | some t =>
      some ⟨query.scriptId, c.1.scriptId, query.path, c.1.path, c.2, t⟩
    | none => none

/-- Modelled from the spec (section 4.4, Duplicate Decision Engine):
turn the scored candidate list into zero or more alert upserts. -/
def decideCandidates (query : ScriptVersion)
    (cands : List (ScriptVersion × ℚ)) : List AlertUpsert :=
  cands.filterMap (decideOne query)

/-- Modelled from the spec (sections 3 and 4.6): alert states `open,
merged, skipped, expired`. -/
inductive AlertState
  | opened
  | merged
  | skipped
  | expired
deriving Repr, DecidableEq

/-- Modelled from the spec (section 4.6): every state except `open` is
terminal for the alert's own transitions. -/
def AlertState.isTerminal : AlertState → Bool
  | .opened => false
  | _ => true

/-- Modelled from the spec (section 3): a DuplicateAlert record,
keyed by owner and the unordered pair of script paths at detection
time. -/
structure DuplicateAlert where
  alertId : Nat
  owner_id : Nat
  pathA : List Char
  pathB : List Char
  score : ℚ
  tier : Tier
  state : AlertState
deriving Repr, DecidableEq

/-- Modelled from the spec (section 3): whether an alert carries the
given owner and unordered pair of paths. -/
def sameKey (owner : Nat) (pa pb : List Char) (a : DuplicateAlert) : Bool :=
  a.owner_id == owner &&
    ((a.pathA == pa && a.pathB == pb) || (a.pathA == pb && a.pathB == pa))

/-- Modelled from the spec (sections 3 and 4.4): re-detection of a
pair updates the existing open alert — refreshing score only if
higher — never creating a second alert; a terminal alert for the pair
suppresses re-alerting; an unknown pair opens a fresh alert. -/
def upsertAlert (newId : Nat) (owner : Nat) (pa pb : List Char)
    (sim : ℚ) (tier : Tier) (store : List DuplicateAlert) :
    List DuplicateAlert :=
  match store.find? (sameKey owner pa pb) with
  | none => ⟨newId, owner, pa, pb, sim, tier, .opened⟩ :: store
  | some a =>
    if a.state = .opened then
      store.map (fun x =>
        if sameKey owner pa pb x && x.state == .opened then
          (if x.score < sim then { x with score := sim, tier := tier } else x)
        else x)
    else store

/-- Modelled from the spec (section 3, DuplicateAlert): the store
invariant — for any owner and unordered pair of paths, at most one
non-terminal alert exists. -/
def AtMostOneNonTerminal (store : List DuplicateAlert) : Prop :=
  ∀ owner pa pb,
    store.countP
      (fun a => sameKey owner pa pb a && !a.state.isTerminal) ≤ 1

/-- Modelled from the spec (section 6, alert mutation contract): the
two user-driven transitions. -/
inductive AlertMutation
  | merge
  | skip
deriving Repr, DecidableEq

/-- Modelled from the spec (section 4.6): the terminal state a
mutation drives an open alert into. -/
def AlertMutation.target : AlertMutation → AlertState
  | .merge => .merged
  | .skip => .skipped

/-- Modelled from the spec (section 6): outcome reported by an alert
mutation; repeating a mutation on an already-terminal alert is a
no-op, not an error. -/
inductive MutationOutcome
  | ok
  | notFound
deriving Repr, DecidableEq

/-- Modelled from the spec (sections 4.6 and 6): `merge(alert_id)` /
`skip(alert_id)` — an open alert transitions to the mutation's
terminal state; a terminal alert is never mutated and the call
reports success. -/
def applyMutation (store : List DuplicateAlert) (id : Nat)
    (m : AlertMutation) : List DuplicateAlert × MutationOutcome :=
  match store.find? (fun a => a.alertId == id) with
  | none => (store, .notFound)
  | some a =>
    if a.state = .opened then
      (store.map (fun x =>
        if x.alertId == id then { x with state := m.target } else x), .ok)
    else (store, .ok)

/-- Modelled from the spec (section 3): an analysis job tracking one
pipeline run, with its attempt count. -/
structure AnalysisJob where
  event : ChangeEvent
  attempts : Nat
deriving Repr, DecidableEq

/-- Modelled from the spec (section 4.5): the coordinator's bounded
queue of pending jobs. -/
structure CoordinatorState where
  queue : List AnalysisJob
deriving Repr, DecidableEq

/-- Modelled from the spec (section 4.5): result of an `enqueue`
call. -/
inductive EnqueueOutcome
  | accepted
  | rejected (e : EngineError)
deriving Repr, DecidableEq

/-- Modelled from the spec (section 4.5, Analysis Job Coordinator):
`enqueue` fails fast with `CapacityExceededError` when the bounded
queue is full; otherwise a still-queued job for the same (owner, path)
is superseded and the new job is appended. -/
def enqueue (cfg : EngineConfig) (s : CoordinatorState) (e : ChangeEvent) :
    EnqueueOutcome × CoordinatorState :=
  if cfg.queueCapacity ≤ s.queue.length then
    (.rejected .capacityExceeded, s)
  else
    (.accepted,
      ⟨(s.queue.filter (fun j =>
          !(j.event.owner_id == e.owner_id && j.event.path == e.path))) ++
        [⟨e, 0⟩]⟩)

/-- Modelled from the spec (section 4.5): transient failures retry,
non-transient ones (malformed script) do not. -/
def isRetryable : EngineError → Bool
  | .transient => true
  | .indexCorruption => true
  | _ => false

/-- Modelled from the spec (section 3, AnalysisJob): the job state
machine `queued → running → {succeeded | failed}` with a dead-letter
state after exhausted retries. -/
inductive JobPhase
  | queued
  | running
  | succeeded
  | failed
  | deadLetter
deriving Repr, DecidableEq

/-- Modelled from the spec (section 3): a job record with its phase
and last recorded error. -/
structure JobRecord where
  job : AnalysisJob
  phase : JobPhase
  lastError : Option EngineError
deriving Repr, DecidableEq

/-- Modelled from the spec (sections 4.5 and 7): handling of a job
failure — a retryable error under the attempt cap requeues the job
with an incremented attempt count; otherwise the failure is terminal
(`failed`, recorded for observability). -/
def onJobFailure (cfg : EngineConfig) (r : JobRecord) (err : EngineError) :
    JobRecord :=
  if isRetryable err && r.job.attempts + 1 < cfg.maxAttempts then
    { job := { event := r.job.event, attempts := r.job.attempts + 1 },
      phase := .queued, lastError := some err }
  else
    { r with phase := .failed, lastError := some err }

/-- Modelled from the spec (section 7, propagation policy): no engine
error is surfaced as a user-facing failure — `only DuplicateAlert
state and AnalysisJob terminal-failure counts are ever surfaced
outward`; `MalformedScriptError` in particular is `surfaced only in
observability, never as a user-facing failure`, and
`CapacityExceededError` goes to the commit-sync collaborator, not a
user. -/
def surfacedAsUserFailure : EngineError → Bool
  | .transient => false
  | .malformedScript => false
  | .indexCorruption => false
  | .capacityExceeded => false

/- ### Theorems -/

/-- C10: `formatCommitMessage` returns the message unchanged when its
length is at most 60 characters, and otherwise returns exactly the
first 60 characters followed by `...`; consequently its output never
exceeds 63 characters. -/
theorem formatCommitMessage_spec (message : JsString) :
    (message.length ≤ 60 → formatCommitMessage message = message) ∧
    (60 < message.length →
      formatCommitMessage message = message.take 60 ++ ellipsis) ∧
    (formatCommitMessage message).length ≤ 63 := by
  unfold formatCommitMessage
  by_cases h : 60 < message.length
  · rw [if_pos h]
    refine ⟨fun h2 => absurd h (not_lt.mpr h2), fun _ => rfl, ?_⟩
    rw [List.length_append, List.length_take]
    simp only [ellipsis, List.length_cons, List.length_nil]
    omega
  · rw [if_neg h]
    exact ⟨fun _ => rfl, fun h2 => absurd h2 h, by omega⟩

/-- Witness for C10 at the two-character message `ab`. -/
theorem formatCommitMessage_spec_witness :
    formatCommitMessage ['a', 'b'] = ['a', 'b'] :=
  (formatCommitMessage_spec ['a', 'b']).1 (by decide)

/-- C6: when the coordinator's bounded job queue is at its capacity
bound, a further `enqueue` returns a `CapacityExceededError`
synchronously and leaves the queue state unchanged. -/
theorem enqueue_at_capacity (cfg : EngineConfig) (s : CoordinatorState)
    (e : ChangeEvent) (h : s.queue.length = cfg.queueCapacity) :
    enqueue cfg s e = (.rejected .capacityExceeded, s) := by
  unfold enqueue
  rw [if_pos (le_of_eq h.symm)]

/-- Witness for C6: a queue of capacity one holding one job rejects
the next event and is unchanged. -/
theorem enqueue_at_capacity_witness :
    enqueue ⟨5, 128, 1000, 1, 3⟩
        ⟨[⟨⟨0, 0, [], [], [], .genericScript⟩, 0⟩]⟩
        ⟨0, 1, [], [], [], .genericScript⟩ =
      (.rejected .capacityExceeded,
        ⟨[⟨⟨0, 0, [], [], [], .genericScript⟩, 0⟩]⟩) :=
  enqueue_at_capacity _ _ _ rfl

/-- C5: a normalized document with fewer than `k` operation tokens is
rejected by the Fingerprint Extractor with a `MalformedScriptError`
(never a sketch); that failure is terminal for the job — it is
recorded `failed` without a requeue — and is never surfaced as a
user-facing failure. -/
theorem malformed_short_document (cfg : EngineConfig)
    (doc : NormalizedDocument) (r : JobRecord)
    (h : doc.tokens.length < cfg.k) :
    extractSketch cfg doc = .error .malformedScript ∧
    onJobFailure cfg r .malformedScript =
      { r with phase := .failed, lastError := some .malformedScript } ∧
    (onJobFailure cfg r .malformedScript).phase ≠ .queued ∧
    surfacedAsUserFailure .malformedScript = false := by
  refine ⟨?_, ?_, ?_, rfl⟩
  · unfold extractSketch
    rw [if_pos h]
  · unfold onJobFailure
    simp [isRetryable]
  · unfold onJobFailure
    simp [isRetryable]

/-- Witness for C5: the empty document under the default `k = 5`. -/
theorem malformed_short_document_witness :
    extractSketch ⟨5, 128, 1000, 16, 3⟩ ⟨[]⟩ = .error .malformedScript ∧
    onJobFailure ⟨5, 128, 1000, 16, 3⟩
        ⟨⟨⟨0, 0, [], [], [], .genericScript⟩, 0⟩, .running, none⟩
        .malformedScript =
      ⟨⟨⟨0, 0, [], [], [], .genericScript⟩, 0⟩, .failed,
        some .malformedScript⟩ := by
  have h := malformed_short_document ⟨5, 128, 1000, 16, 3⟩ ⟨[]⟩
    ⟨⟨⟨0, 0, [], [], [], .genericScript⟩, 0⟩, .running, none⟩ (by decide)
  exact ⟨h.1, h.2.1⟩

/-- C2: the normalize-then-fingerprint pipeline is a pure,
deterministic function of the script content and the fixed (k, h)
configuration: two events with the same raw content produce
bit-identical sketch results, and running the pipeline twice on one
event produces bit-identical results. -/
theorem pipeline_deterministic (cfg : EngineConfig) (e1 e2 : ChangeEvent)
    (h : e1.raw_content = e2.raw_content) :
    pipelineSketch cfg e1 = pipelineSketch cfg e2 ∧
    pipelineSketch cfg e1 = pipelineSketch cfg e1 := by
  unfold pipelineSketch
  rw [h]
  exact ⟨rfl, rfl⟩

/-- Witness for C2: two events that differ in path and commit but
share the same raw content yield the same sketch result. -/
theorem pipeline_deterministic_witness :
    pipelineSketch ⟨2, 4, 1000, 16, 3⟩
        ⟨0, 0, ['a'], ['1'], [.opTok ['f'], .ident ['x'], .opTok ['g']],
          .genericScript⟩ =
      pipelineSketch ⟨2, 4, 1000, 16, 3⟩
        ⟨0, 0, ['b'], ['2'], [.opTok ['f'], .ident ['x'], .opTok ['g']],
          .genericScript⟩ :=
  (pipeline_deterministic ⟨2, 4, 1000, 16, 3⟩ _ _ rfl).1

/-- C1: the Duplicate Decision Engine's tiering of a (candidate,
estimated similarity) pair — similarity at least 0.85 tiers as
`likely_duplicate` (and, absent the same-path suppression, yields that
alert), similarity in [0.60, 0.85) tiers as `similar`, and similarity
below 0.60 never yields an alert. -/
theorem tier_thresholds (q c : ScriptVersion) (sim : ℚ) :
    (85 / 100 ≤ sim → decideTier sim = some .likely_duplicate) ∧
    (60 / 100 ≤ sim → sim < 85 / 100 → decideTier sim = some .similar) ∧
    (sim < 60 / 100 → decideTier sim = none) ∧
    (sim < 60 / 100 → decideOne q (c, sim) = none) ∧
    (85 / 100 ≤ sim → c.path ≠ q.path →
      decideOne q (c, sim) =
        some ⟨q.scriptId, c.scriptId, q.path, c.path, sim,
          .likely_duplicate⟩) := by
  have hnone : sim < 60 / 100 → decideTier sim = none := by
    intro h
    unfold decideTier
    rw [if_neg (not_le.mpr (lt_trans h (by norm_num))), if_neg (not_le.mpr h)]
  refine ⟨?_, ?_, hnone, ?_, ?_⟩
  · intro h
    unfold decideTier
    rw [if_pos h]
  · intro h1 h2
    unfold decideTier
    rw [if_neg (not_le.mpr h2), if_pos h1]
  · intro h
    unfold decideOne
    by_cases hp : c.path = q.path
    · rw [if_pos hp]
    · rw [if_neg hp]
      rw [hnone h]
  · intro h hp
    unfold decideOne
    rw [if_neg hp]
    have ht : decideTier sim = some .likely_duplicate := by
      unfold decideTier
      rw [if_pos h]
    rw [ht]

/-- Witness for C1 at similarities 0.9, 0.7 and 0.5. -/
theorem tier_thresholds_witness :
    decideTier (9 / 10) = some .likely_duplicate ∧
    decideTier (7 / 10) = some .similar ∧
    decideTier (1 / 2) = none :=
  ⟨(tier_thresholds ⟨0, 0, 0, [], [], 0, false⟩ ⟨0, 0, 0, [], [], 0, false⟩
      (9 / 10)).1 (by norm_num),
   (tier_thresholds ⟨0, 0, 0, [], [], 0, false⟩ ⟨0, 0, 0, [], [], 0, false⟩
      (7 / 10)).2.1 (by norm_num) (by norm_num),
   (tier_thresholds ⟨0, 0, 0, [], [], 0, false⟩ ⟨0, 0, 0, [], [], 0, false⟩
      (1 / 2)).2.2.1 (by norm_num)⟩

/-- C4: every alert upsert the Decision Engine emits pairs the
querying script with a candidate at a different path, so a new commit
is never paired with its own prior version at the same path
(supersession is not duplication). -/
theorem supersession_suppression (query : ScriptVersion)
    (cands : List (ScriptVersion × ℚ)) (u : AlertUpsert)
    (hu : u ∈ decideCandidates query cands) :
    u.queryPath = query.path ∧ u.candidatePath ≠ query.path := by
  unfold decideCandidates at hu
  rcases List.mem_filterMap.mp hu with ⟨⟨c, sim⟩, hmem, hdec⟩
  unfold decideOne at hdec
  by_cases hp : c.path = query.path
  · rw [if_pos hp] at hdec
    exact absurd hdec (by simp)
  · rw [if_neg hp] at hdec
    cases ht : decideTier sim with
    | none =>
      rw [ht] at hdec
      exact absurd hdec (by simp)
    | some t =>
      rw [ht] at hdec
      have hu2 := Option.some.inj hdec
      rw [← hu2]
      exact ⟨rfl, hp⟩

/-- Witness for C4: the upsert produced for a 0.9-similar candidate at
path `b` against a query at path `a` keeps the two paths distinct. -/
theorem supersession_suppression_witness :
    (⟨1, 2, ['a'], ['b'], 9 / 10, .likely_duplicate⟩ : AlertUpsert).queryPath =
        (⟨1, 0, 0, ['a'], [], 0, false⟩ : ScriptVersion).path ∧
    (⟨1, 2, ['a'], ['b'], 9 / 10, .likely_duplicate⟩ : AlertUpsert).candidatePath ≠
        (⟨1, 0, 0, ['a'], [], 0, false⟩ : ScriptVersion).path :=
  supersession_suppression ⟨1, 0, 0, ['a'], [], 0, false⟩
    [(⟨2, 0, 0, ['b'], [], 0, false⟩, 9 / 10)]
    ⟨1, 2, ['a'], ['b'], 9 / 10, .likely_duplicate⟩
    (by
      norm_num [decideCandidates, decideOne, decideTier, List.filterMap]
      simp)

/-- C7: repeating the same mutation on an already-terminal alert —
`merge` on a merged alert, `skip` on a skipped one — is a no-op: the
store is returned unchanged and the outcome is `ok`, not an error. -/
theorem mutation_idempotent (store : List DuplicateAlert) (id : Nat)
    (m : AlertMutation) (a : DuplicateAlert)
    (hfind : store.find? (fun x => x.alertId == id) = some a)
    (hterm : a.state = m.target) :
    applyMutation store id m = (store, .ok) := by
  unfold applyMutation
  rw [hfind]
  have hne : ¬(a.state = .opened) := by
    rw [hterm]
    cases m <;> simp [AlertMutation.target]
  dsimp only
  rw [if_neg hne]

/-- Witness for C7: a second `merge` of an already-merged alert
returns the store unchanged with outcome `ok`. -/
theorem mutation_idempotent_witness :
    applyMutation [⟨1, 7, ['a'], ['b'], 9 / 10, .likely_duplicate, .merged⟩]
        1 .merge =
      ([⟨1, 7, ['a'], ['b'], 9 / 10, .likely_duplicate, .merged⟩], .ok) :=
  mutation_idempotent _ 1 .merge
    ⟨1, 7, ['a'], ['b'], 9 / 10, .likely_duplicate, .merged⟩ rfl rfl

/-- The unordered pair key is symmetric in its two paths. -/
theorem sameKey_swap (owner : Nat) (pa pb : List Char) (a : DuplicateAlert) :
    sameKey owner pb pa a = sameKey owner pa pb a := by
  unfold sameKey
  rw [Bool.or_comm]

/-- C3: `upsertAlert` preserves the at-most-one-non-terminal-alert
invariant for every owner and unordered pair of script paths, and when
an alert for the pair already exists re-detection never adds a second
alert — it updates the existing open alert's score and tier in
place. -/
theorem alert_pair_uniqueness (newId owner : Nat) (pa pb : List Char)
    (sim : ℚ) (tier : Tier) (store : List DuplicateAlert)
    (hinv : AtMostOneNonTerminal store) :
    AtMostOneNonTerminal (upsertAlert newId owner pa pb sim tier store) ∧
    (∀ a, store.find? (sameKey owner pa pb) = some a →
      (upsertAlert newId owner pa pb sim tier store).length = store.length) ∧
    (∀ a, store.find? (sameKey owner pa pb) = some a → a.state = .opened →
      a.score < sim →
      ({ a with score := sim, tier := tier } : DuplicateAlert) ∈
        upsertAlert newId owner pa pb sim tier store) := by
  unfold upsertAlert
  cases hfind : store.find? (sameKey owner pa pb) with
  | none =>
    dsimp only
    refine ⟨?_, ?_, ?_⟩
    · intro o p q
      rw [List.countP_cons]
      by_cases hnew :
        (sameKey o p q ⟨newId, owner, pa, pb, sim, tier, .opened⟩ &&
          !(AlertState.opened).isTerminal) = true
      · have hkey : sameKey o p q ⟨newId, owner, pa, pb, sim, tier, .opened⟩ = true :=
          (Bool.and_eq_true_iff.mp hnew).1
        have hzero : store.countP
            (fun a => sameKey o p q a && !a.state.isTerminal) = 0 := by
          rw [List.countP_eq_zero]
          intro a ha
          have hnone := (List.find?_eq_none.mp hfind) a ha
          have hkeys : sameKey o p q a = sameKey owner pa pb a := by
            simp only [sameKey, beq_iff_eq, Bool.and_eq_true_iff,
              Bool.or_eq_true_iff] at hkey
            rcases hkey with ⟨ho, hpq | hpq⟩
            · rw [ho.symm, hpq.1.symm, hpq.2.symm]
            · rw [ho.symm, hpq.1.symm, hpq.2.symm, sameKey_swap]
          simp only [hkeys]
          intro hcontra
          exact hnone ((Bool.and_eq_true_iff.mp hcontra).1)
        rw [hzero, if_pos hnew]
      · rw [if_neg hnew]
        have := hinv o p q
        omega
    · intro a ha
      exact absurd ha (by simp)
    · intro a ha
      exact absurd ha (by simp)
  | some a0 =>
    dsimp only
    have hkey0 : sameKey owner pa pb a0 = true := List.find?_some hfind
    have hmem0 : a0 ∈ store := List.mem_of_find?_eq_some hfind
    by_cases hopen : a0.state = .opened
    · rw [if_pos hopen]
      refine ⟨?_, ?_, ?_⟩
      · intro o p q
        rw [List.countP_map]
        have hfun :
            ((fun a => sameKey o p q a && !a.state.isTerminal) ∘
              (fun x =>
                if sameKey owner pa pb x && x.state == AlertState.opened then
                  (if x.score < sim then
                    { x with score := sim, tier := tier } else x)
                else x)) =
            (fun a => sameKey o p q a && !a.state.isTerminal) := by
          funext x
          dsimp only [Function.comp]
          split
          · split
            · rfl
            · rfl
          · rfl
        rw [hfun]
        exact hinv o p q
      · intro a ha
        rw [List.length_map]
      · intro a ha hopen2 hscore
        have haa : a0 = a := Option.some.inj ha
        subst haa
        have hfx :
            (fun x =>
              if sameKey owner pa pb x && x.state == AlertState.opened then
                (if x.score < sim then
                  { x with score := sim, tier := tier } else x)
              else x) a0 =
            ({ a0 with score := sim, tier := tier } : DuplicateAlert) := by
          simp only [hkey0, hopen, if_pos hscore, beq_self_eq_true,
            Bool.and_true, if_pos]
        rw [← hfx]
        exact List.mem_map_of_mem _ hmem0
    · rw [if_neg hopen]
      refine ⟨hinv, fun a ha => rfl, ?_⟩
      intro a ha hopen2 hscore
      have haa : a0 = a := Option.some.inj ha
      subst haa
      exact absurd hopen2 hopen

/-- Witness for C3: re-detecting the pair (`a`, `b`) against a store
holding one open alert for it keeps the store at one alert. -/
theorem alert_pair_uniqueness_witness :
    (upsertAlert 2 0 ['a'] ['b'] (95 / 100) .likely_duplicate
        [⟨1, 0, ['a'], ['b'], 7 / 10, .similar, .opened⟩]).length =
      [(⟨1, 0, ['a'], ['b'], 7 / 10, .similar, .opened⟩ : DuplicateAlert)].length :=
  (alert_pair_uniqueness 2 0 ['a'] ['b'] (95 / 100) .likely_duplicate
      [⟨1, 0, ['a'], ['b'], 7 / 10, .similar, .opened⟩]
      (by
        intro o p q
        rw [List.countP_cons, List.countP_nil]
        split <;> omega)).2.1
    ⟨1, 0, ['a'], ['b'], 7 / 10, .similar, .opened⟩ rfl

/-- C8: every `ApiClient` method is total — a thrown `fetch` error and
a thrown `response.json()` error are both caught and returned as
`{ success: false, error: message }`, any unsuccessful result carries
an error message, and `post`, `put` and `delete` handle outcomes
exactly as `get` does, so the returned promise never rejects. -/
theorem apiClient_total (outcome : FetchOutcome) (b : Browser) :
    (∀ e, outcome = .error e →
      ApiClient.get outcome b = (catchResponse e, b)) ∧
    (∀ r e, outcome = .ok r → r.status ≠ 401 → r.json = .error e →
      ApiClient.get outcome b = (catchResponse e, b)) ∧
    ((ApiClient.get outcome b).1.success = false →
      (ApiClient.get outcome b).1.error.isSome) ∧
    ApiClient.post outcome b = ApiClient.get outcome b ∧
    ApiClient.put outcome b = ApiClient.get outcome b ∧
    ApiClient.delete outcome b = ApiClient.get outcome b := by
  refine ⟨?_, ?_, ?_, rfl, rfl, rfl⟩
  · intro e he
    subst he
    rfl
  · intro r e hr h401 hjson
    subst hr
    show handleResponse r b = (catchResponse e, b)
    unfold handleResponse
    rw [if_neg h401, hjson]
  · cases outcome with
    | error e =>
      intro _
      simp [ApiClient.get, catchResponse]
    | ok r =>
      show (handleResponse r b).1.success = false →
        (handleResponse r b).1.error.isSome
      unfold handleResponse
      by_cases h4 : r.status = 401
      · rw [if_pos h4]
        intro _
        simp
      · rw [if_neg h4]
        cases hj : r.json with
        | error e =>
          intro _
          simp [catchResponse]
        | ok body =>
          cases hok : r.ok with
          | false =>
            simp
          | true =>
            simp

/-- Witness for C8: a thrown network error comes back as the failure
response, with the browser state untouched. -/
theorem apiClient_total_witness :
    ApiClient.get (.error ⟨true, ['b', 'o', 'o', 'm']⟩) ⟨true, none, []⟩ =
      (catchResponse ⟨true, ['b', 'o', 'o', 'm']⟩, ⟨true, none, []⟩) :=
  (apiClient_total (.error ⟨true, ['b', 'o', 'o', 'm']⟩) ⟨true, none, []⟩).1
    ⟨true, ['b', 'o', 'o', 'm']⟩ rfl

/-- C9: on an HTTP 401 in a browser context, `handleResponse` removes
the stored auth token, redirects to `/login`, and returns
`{ success: false, error: 'Unauthorized' }` — all without reading the
response body (the result is the same for every `json` outcome). -/
theorem unauthorized_redirects (response : Response) (b : Browser)
    (h401 : response.status = 401) (hwin : b.windowDefined = true) :
    handleResponse response b =
      ({ data := none, error := some "Unauthorized".data, success := false },
        { windowDefined := true, authToken := none,
          locationHref := "/login".data }) ∧
    (∀ j, handleResponse { response with json := j } b =
      handleResponse response b) := by
  have core : ∀ r : Response, r.status = 401 →
      handleResponse r b =
        ({ data := none, error := some "Unauthorized".data, success := false },
          { windowDefined := true, authToken := none,
            locationHref := "/login".data }) := by
    intro r hr
    unfold handleResponse
    rw [if_pos hr]
    cases b with
    | mk wd tok loc =>
      dsimp only at hwin
      subst hwin
      simp
  exact ⟨core response h401,
    fun j => (core { response with json := j } h401).trans
      (core response h401).symm⟩

/-- Witness for C9: a 401 response with a stored token in a browser
clears the token and lands on `/login`. -/
theorem unauthorized_redirects_witness :
    handleResponse ⟨401, false, .ok ⟨none, none⟩⟩
        ⟨true, some ['t'], ['/']⟩ =
      ({ data := none, error := some "Unauthorized".data, success := false },
        { windowDefined := true, authToken := none,
          locationHref := "/login".data }) :=
  (unauthorized_redirects ⟨401, false, .ok ⟨none, none⟩⟩
    ⟨true, some ['t'], ['/']⟩ rfl rfl).1
